import Mathlib

/-!
Verification of the entity module of a small arcade shooter
(`src/entities.rs`): a player ship with clamped horizontal movement,
straight-line shots, and enemies carrying a polymorphic sprite.

Floating-point scalars (`f32`) of the source are modelled as rationals:
every operation the claims concern is plain field arithmetic and
comparison, which `ℚ` mirrors exactly.
-/

namespace Shooter

/-- 2-D point / vector (`Point2` / `Vector2` of nalgebra): a pair of scalars. -/
structure Vec2 where
  x : ℚ
  y : ℚ
deriving Repr, DecidableEq

/-- Componentwise vector addition, as used by `pos += velocity * seconds`. -/
def Vec2.add (a b : Vec2) : Vec2 := ⟨a.x + b.x, a.y + b.y⟩

/-- Scalar multiplication `v * s` on a 2-D vector (componentwise). -/
def Vec2.smul (v : Vec2) (s : ℚ) : Vec2 := ⟨v.x * s, v.y * s⟩

/-- `na::clamp(val, min, max)` of nalgebra, exactly as the library computes it:
`if val > min { if val < max { val } else { max } } else { min }`. -/
def naClamp (val lo hi : ℚ) : ℚ :=
  if lo < val then (if val < hi then val else hi) else lo

/-- `PlayerState`: the two visual/behavioural modes of the player. -/
inductive PlayerState where
  | Normal
  | Shooting
deriving Repr, DecidableEq

/-- The `Player` struct: state, position, cooldown timer, velocity. -/
structure Player where
  state : PlayerState
  pos : Vec2
  time_until_next_shot : ℚ
  velocity : Vec2
deriving Repr, DecidableEq

/-- `Player::SHOT_TIMEOUT`. -/
def Player.SHOT_TIMEOUT : ℚ := 1

/-- `Player::SPEED`. -/
def Player.SPEED : ℚ := 500

/-- `Player::new(pos)`. -/
def Player.new (pos : Vec2) : Player :=
  { state := PlayerState.Normal
    pos := pos
    velocity := ⟨0, 0⟩
    time_until_next_shot := Player.SHOT_TIMEOUT }

/-- `Player::update(amount, seconds, max_right)`:
`new_pos = pos.x + SPEED * seconds * amount; pos.x = na::clamp(new_pos, 0.0, max_right)`. -/
def Player.update (p : Player) (amount seconds max_right : ℚ) : Player :=
  let new_pos := p.pos.x + Player.SPEED * seconds * amount
  { p with pos := ⟨naClamp new_pos 0 max_right, p.pos.y⟩ }

/-- The `Shot` struct: position, alive flag, velocity. -/
structure Shot where
  pos : Vec2
  is_alive : Bool
  velocity : Vec2
deriving Repr, DecidableEq

/-- `Shot::new(pos)`: alive, fixed upward velocity `(0, -500)`. -/
def Shot.new (pos : Vec2) : Shot :=
  { pos := pos, is_alive := true, velocity := ⟨0, -500⟩ }

/-- `Shot::update(seconds)`: `pos += velocity * seconds`. -/
def Shot.update (s : Shot) (seconds : ℚ) : Shot :=
  { s with pos := s.pos.add (s.velocity.smul seconds) }

/-- A value implementing the `Sprite` trait, as far as geometry is concerned:
its intrinsic pixel dimensions (`width()` / `height()`, both `u32`). -/
structure SpriteDims where
  width : ℕ
  height : ℕ
deriving Repr, DecidableEq

/-- The `Enemy` struct: position, alive flag, owned label, velocity,
owned boxed sprite. -/
structure Enemy where
  pos : Vec2
  is_alive : Bool
  label : String
  velocity : Vec2
  sprite : SpriteDims
deriving Repr, DecidableEq

/-- Errors of the rendering library (`GameError` of ggez), as an opaque token
carried through `GameResult` propagation. -/
structure GameError where
  msg : String
deriving Repr, DecidableEq

/-- `Enemy::new(label, pos, speed, sprite)`: wraps the struct in `Ok`
unconditionally; alive = true, velocity = `(0, speed)`. -/
def Enemy.new (label : String) (pos : Vec2) (speed : ℚ) (sprite : SpriteDims) :
    Except GameError Enemy :=
  Except.ok
    { pos := pos
      label := label
      sprite := sprite
      is_alive := true
      velocity := ⟨0, speed⟩ }

/-- `Enemy::update(seconds)`: `pos += velocity * seconds`. -/
def Enemy.update (e : Enemy) (seconds : ℚ) : Enemy :=
  { e with pos := e.pos.add (e.velocity.smul seconds) }

/-- `graphics::Rect` of ggez: top-left corner plus width and height. -/
structure Rect where
  x : ℚ
  y : ℚ
  w : ℚ
  h : ℚ
deriving Repr, DecidableEq

/-- `Enemy::bounding_rect()`: corners at position ± half sprite dimensions,
then `Rect::new(left, top, right - left, bottom - top)`. -/
def Enemy.bounding_rect (e : Enemy) : Rect :=
  let left : ℚ := e.pos.x - (e.sprite.width : ℚ) / 2
  let right : ℚ := e.pos.x + (e.sprite.width : ℚ) / 2
  let top : ℚ := e.pos.y - (e.sprite.height : ℚ) / 2
  let bottom : ℚ := e.pos.y + (e.sprite.height : ℚ) / 2
  { x := left, y := top, w := right - left, h := bottom - top }

/-- A loaded font handle (`graphics::Font`), an opaque resource token. -/
structure Font where
  id : ℕ
deriving Repr, DecidableEq

/-- Laid-out text (`graphics::Text`), an opaque resource token. -/
structure LaidOutText where
  id : ℕ
deriving Repr, DecidableEq

/-- The rendering context (`ggez::Context`) as the claims need it: the two
fallible resource operations `TextSprite::new` invokes on it —
`Font::new(ctx, path, size)` and `Text::new(ctx, label, font)`. -/
structure Context where
  loadFont : String → ℕ → Except GameError Font
  layoutText : String → Font → Except GameError LaidOutText

/-- The `TextSprite` struct: holds the text laid out at construction. -/
structure TextSprite where
  text : LaidOutText
deriving Repr, DecidableEq

/-- `TextSprite::new(label, ctx)`:
`let font = Font::new(ctx, "/DejaVuSerif.ttf", 16)?;`
`let text = Text::new(ctx, label, &font)?; Ok(TextSprite { text })`. -/
def TextSprite.new (label : String) (ctx : Context) : Except GameError TextSprite := do
  let font ← ctx.loadFont "/DejaVuSerif.ttf" 16
  let text ← ctx.layoutText label font
  pure { text := text }

/-- A concrete font handle, for evaluating `TextSprite.new` on a context
whose resource operations succeed. -/
def fontG : Font := ⟨1⟩

/-- A concrete laid-out text, produced by the succeeding context below. -/
def textG : LaidOutText := ⟨2⟩

/-- A rendering context whose font loading and text layout both succeed. -/
def ctxGood : Context :=
  { loadFont := fun _ _ => Except.ok fontG
    layoutText := fun _ _ => Except.ok textG }

/-- A concrete enemy with velocity `(0, 120)`, as `Enemy.new` with speed
`120` produces, for evaluating the movement property. -/
def enemyW : Enemy :=
  { pos := ⟨5, 10⟩
    is_alive := true
    label := "w"
    velocity := ⟨0, 120⟩
    sprite := ⟨8, 4⟩ }

/-- For a nonnegative upper bound, nalgebra's clamp agrees with the
interval clamp `min (max v 0) hi`. -/
theorem naClamp_eq_min_max (v hi : ℚ) (h : 0 ≤ hi) :
    naClamp v 0 hi = min (max v 0) hi := by
  unfold naClamp
  rcases lt_or_le 0 v with h1 | h1
  · rcases lt_or_le v hi with h2 | h2
    · rw [if_pos h1, if_pos h2, max_eq_left h1.le, min_eq_left h2.le]
    · rw [if_pos h1, if_neg (not_lt.mpr h2), max_eq_left h1.le, min_eq_right h2]
  · rw [if_neg (not_lt.mpr h1), max_eq_right h1, min_eq_left h]

/-- C1: `Player.update` sets the x-coordinate to
`na::clamp(x + SPEED * seconds * amount, 0, max_right)` with `SPEED = 500`,
which for a nonnegative bound is exactly the clamp of
`x + 500 * seconds * amount` into the interval `[0, max_right]`. -/
theorem player_update_sets_x_to_clamp (p : Player) (amount seconds max_right : ℚ) :
    (p.update amount seconds max_right).pos.x
      = naClamp (p.pos.x + Player.SPEED * seconds * amount) 0 max_right
    ∧ Player.SPEED = 500
    ∧ (0 ≤ max_right →
        (p.update amount seconds max_right).pos.x
          = min (max (p.pos.x + 500 * seconds * amount) 0) max_right) := by
  refine ⟨rfl, rfl, fun h => ?_⟩
  show naClamp (p.pos.x + Player.SPEED * seconds * amount) 0 max_right = _
  rw [naClamp_eq_min_max _ _ h, Player.SPEED]

/-- Witness for C1 at the spec's own example: starting `x = 0`,
`amount = 1`, `seconds = 1`, `max_right = 1000` gives `x = 500`. -/
theorem player_update_sets_x_to_clamp_witness :
    ((Player.new ⟨0, 0⟩).update 1 1 1000).pos.x
      = min (max ((0 : ℚ) + 500 * 1 * 1) 0) 1000 :=
  (player_update_sets_x_to_clamp (Player.new ⟨0, 0⟩) 1 1 1000).2.2 (by norm_num)

/-- C2: for every `amount`, `seconds` and nonnegative `max_right`, after
`Player.update` the x-coordinate lies in `[0, max_right]`. -/
theorem player_update_x_in_bounds (p : Player) (amount seconds max_right : ℚ)
    (h : 0 ≤ max_right) :
    0 ≤ (p.update amount seconds max_right).pos.x
      ∧ (p.update amount seconds max_right).pos.x ≤ max_right := by
  show 0 ≤ naClamp _ 0 max_right ∧ naClamp _ 0 max_right ≤ max_right
  unfold naClamp
  split_ifs with h1 h2
  · exact ⟨h1.le, h2.le⟩
  · exact ⟨h, le_refl _⟩
  · exact ⟨le_refl 0, h⟩

/-- Witness for C2: the clamped position after a large leftward move from
`x = 10` is inside `[0, 1000]`. -/
theorem player_update_x_in_bounds_witness :
    0 ≤ ((Player.new ⟨10, 0⟩).update (-1) 1 1000).pos.x
      ∧ ((Player.new ⟨10, 0⟩).update (-1) 1 1000).pos.x ≤ 1000 :=
  player_update_x_in_bounds (Player.new ⟨10, 0⟩) (-1) 1 1000 (by norm_num)

/-- C3: `Player.update` changes only the x-coordinate: the y-coordinate,
state, cooldown timer and velocity are all unchanged, for every player and
every combination of arguments. -/
theorem player_update_frame (p : Player) (amount seconds max_right : ℚ) :
    (p.update amount seconds max_right).pos.y = p.pos.y
    ∧ (p.update amount seconds max_right).state = p.state
    ∧ (p.update amount seconds max_right).time_until_next_shot
        = p.time_until_next_shot
    ∧ (p.update amount seconds max_right).velocity = p.velocity :=
  ⟨rfl, rfl, rfl, rfl⟩

/-- C4: `Player.new p` has position `p`, state `Normal`, zero velocity, and
cooldown timer equal to `SHOT_TIMEOUT = 1`. -/
theorem player_new_spec (p : Vec2) :
    (Player.new p).pos = p
    ∧ (Player.new p).state = PlayerState.Normal
    ∧ (Player.new p).velocity = ⟨0, 0⟩
    ∧ (Player.new p).time_until_next_shot = Player.SHOT_TIMEOUT
    ∧ Player.SHOT_TIMEOUT = 1 :=
  ⟨rfl, rfl, rfl, rfl, rfl⟩

/-- C5: `Shot.new p` is at `p`, alive, with velocity `(0, -500)`; any shot
with that velocity keeps it across `update`, and for nonnegative elapsed
seconds `update` moves the position by exactly `(0, -500 * seconds)` and
leaves the alive flag unchanged. -/
theorem shot_new_update_spec (p : Vec2) :
    (Shot.new p).pos = p
    ∧ (Shot.new p).is_alive = true
    ∧ (Shot.new p).velocity = ⟨0, -500⟩
    ∧ ∀ (s : Shot) (seconds : ℚ), s.velocity = ⟨0, -500⟩ → 0 ≤ seconds →
        (s.update seconds).velocity = s.velocity
        ∧ (s.update seconds).pos.x = s.pos.x
        ∧ (s.update seconds).pos.y = s.pos.y + (-500) * seconds
        ∧ (s.update seconds).is_alive = s.is_alive := by
  refine ⟨rfl, rfl, rfl, fun s seconds hv _ => ⟨rfl, ?_, ?_, rfl⟩⟩
  · show s.pos.x + s.velocity.x * seconds = s.pos.x
    rw [hv]
    ring
  · show s.pos.y + s.velocity.y * seconds = s.pos.y + (-500) * seconds
    rw [hv]

/-- Witness for C5: a freshly constructed shot at `(3, 7)` updated for
`2` seconds. -/
theorem shot_new_update_spec_witness :
    (Shot.new ⟨3, 7⟩).pos = ⟨3, 7⟩
    ∧ (Shot.new ⟨3, 7⟩).is_alive = true
    ∧ (Shot.new ⟨3, 7⟩).velocity = ⟨0, -500⟩
    ∧ ((Shot.new ⟨3, 7⟩).update 2).velocity = (Shot.new ⟨3, 7⟩).velocity
    ∧ ((Shot.new ⟨3, 7⟩).update 2).pos.x = (Shot.new ⟨3, 7⟩).pos.x
    ∧ ((Shot.new ⟨3, 7⟩).update 2).pos.y = (Shot.new ⟨3, 7⟩).pos.y + (-500) * 2
    ∧ ((Shot.new ⟨3, 7⟩).update 2).is_alive = (Shot.new ⟨3, 7⟩).is_alive := by
  have h := shot_new_update_spec ⟨3, 7⟩
  have h4 := h.2.2.2 (Shot.new ⟨3, 7⟩) 2 h.2.2.1 (by norm_num)
  exact ⟨h.1, h.2.1, h.2.2.1, h4.1, h4.2.1, h4.2.2.1, h4.2.2.2⟩

/-- C6: for an enemy whose velocity is `(0, speed)` — as `Enemy.new` with
that speed produces — `update` leaves the x-coordinate unchanged and adds
`speed * seconds` to the y-coordinate, for every `seconds`. -/
theorem enemy_update_moves_vertically (e : Enemy) (speed seconds : ℚ)
    (hv : e.velocity = ⟨0, speed⟩) :
    (e.update seconds).pos.x = e.pos.x
    ∧ (e.update seconds).pos.y = e.pos.y + speed * seconds := by
  constructor
  · show e.pos.x + e.velocity.x * seconds = e.pos.x
    rw [hv]
    ring
  · show e.pos.y + e.velocity.y * seconds = e.pos.y + speed * seconds
    rw [hv]

/-- Witness for C6: an enemy built by `Enemy.new` with speed `120`, updated
for a quarter second. -/
theorem enemy_update_moves_vertically_witness :
    (enemyW.update (1/4)).pos.x = enemyW.pos.x
    ∧ (enemyW.update (1/4)).pos.y = enemyW.pos.y + 120 * (1/4) :=
  enemy_update_moves_vertically enemyW 120 (1/4) rfl

/-- C7: `Enemy.bounding_rect` has width equal to the sprite's width, height
equal to the sprite's height, and is centered exactly on the enemy's
current position, for any position and sprite dimensions. -/
theorem enemy_bounding_rect_spec (e : Enemy) :
    e.bounding_rect.w = (e.sprite.width : ℚ)
    ∧ e.bounding_rect.h = (e.sprite.height : ℚ)
    ∧ e.bounding_rect.x + e.bounding_rect.w / 2 = e.pos.x
    ∧ e.bounding_rect.y + e.bounding_rect.h / 2 = e.pos.y := by
  refine ⟨?_, ?_, ?_, ?_⟩ <;>
    simp only [Enemy.bounding_rect] <;> ring

/-- C9: `Enemy.new` never fails: it returns `Ok` of an enemy that is alive,
has velocity `(0, speed)` for a speed of any sign, carries the given
position and sprite, and whose `label()` accessor returns exactly the label
passed in. -/
theorem enemy_new_spec (label : String) (pos : Vec2) (speed : ℚ)
    (sprite : SpriteDims) :
    ∃ e : Enemy, Enemy.new label pos speed sprite = Except.ok e
      ∧ e.is_alive = true
      ∧ e.velocity = ⟨0, speed⟩
      ∧ e.pos = pos
      ∧ e.sprite = sprite
      ∧ e.label = label :=
  ⟨_, rfl, rfl, rfl, rfl, rfl, rfl⟩

/-- C10: `Enemy.update` modifies only the position: the alive flag, label,
velocity and owned sprite are unchanged for every enemy and every elapsed
time. -/
theorem enemy_update_frame (e : Enemy) (seconds : ℚ) :
    (e.update seconds).is_alive = e.is_alive
    ∧ (e.update seconds).label = e.label
    ∧ (e.update seconds).velocity = e.velocity
    ∧ (e.update seconds).sprite = e.sprite :=
  ⟨rfl, rfl, rfl, rfl⟩

/-- `x.bind k` succeeds with `b` exactly when `x` succeeds with some `a`
and `k a` succeeds with `b` — the semantics of one `?` step. -/
theorem except_bind_eq_ok {ε α β : Type} (x : Except ε α) (k : α → Except ε β)
    (b : β) :
    x.bind k = Except.ok b ↔ ∃ a, x = Except.ok a ∧ k a = Except.ok b := by
  cases x <;> simp [Except.bind]

/-- `x.bind k` fails with `e` exactly when `x` fails with `e`, or `x`
succeeds with some `a` and `k a` fails with `e`. -/
theorem except_bind_eq_error {ε α β : Type} (x : Except ε α)
    (k : α → Except ε β) (e : ε) :
    x.bind k = Except.error e
      ↔ x = Except.error e ∨ ∃ a, x = Except.ok a ∧ k a = Except.error e := by
  cases x <;> simp [Except.bind]

/-- C8: `TextSprite.new` succeeds exactly when loading the fixed serif font
and laying out the label both succeed, and on success the sprite holds the
text laid out at construction; on failure it returns the failing resource
operation's error, and no `TextSprite` value is produced. -/
theorem textSprite_new_spec (label : String) (ctx : Context) :
    (∀ ts : TextSprite, TextSprite.new label ctx = Except.ok ts ↔
       ∃ f : Font, ctx.loadFont "/DejaVuSerif.ttf" 16 = Except.ok f
         ∧ ctx.layoutText label f = Except.ok ts.text)
    ∧ (∀ err : GameError, TextSprite.new label ctx = Except.error err →
         ctx.loadFont "/DejaVuSerif.ttf" 16 = Except.error err
         ∨ ∃ f : Font, ctx.loadFont "/DejaVuSerif.ttf" 16 = Except.ok f
             ∧ ctx.layoutText label f = Except.error err) := by
  have hdef : TextSprite.new label ctx
      = (ctx.loadFont "/DejaVuSerif.ttf" 16).bind
          (fun font => (ctx.layoutText label font).bind
            (fun text => Except.ok { text := text })) := rfl
  constructor
  · intro ts
    rw [hdef, except_bind_eq_ok]
    constructor
    · rintro ⟨f, hf, hrest⟩
      rw [except_bind_eq_ok] at hrest
      rcases hrest with ⟨t, ht, hok⟩
      injection hok with h2
      subst h2
      exact ⟨f, hf, ht⟩
    · rintro ⟨f, hf, ht⟩
      exact ⟨f, hf, (except_bind_eq_ok _ _ _).mpr ⟨ts.text, ht, rfl⟩⟩
  · intro err he
    rw [hdef, except_bind_eq_error] at he
    rcases he with he | ⟨f, hf, hrest⟩
    · exact Or.inl he
    · rw [except_bind_eq_error] at hrest
      rcases hrest with hrest | ⟨t, ht, hbad⟩
      · exact Or.inr ⟨f, hf, hrest⟩
      · exact Except.noConfusion hbad

/-- Witness for C8: on a context whose font load and text layout both
succeed, `TextSprite.new` returns the sprite holding the laid-out text. -/
theorem textSprite_new_spec_witness :
    TextSprite.new "hi" ctxGood = Except.ok ⟨textG⟩ :=
  ((textSprite_new_spec "hi" ctxGood).1 ⟨textG⟩).mpr ⟨fontG, rfl, rfl⟩

end Shooter
